import Mathlib

/-! Execution-graph wrappers: `cuda/api/multi_wrapper_impls/graph.hpp`

A shallow embedding of the functions of `graph.hpp`:

* handles are natural numbers (they are opaque pointers in the source);
* a function which may throw returns an `Except exception _`;
* the driver is an explicit value `driver_t` giving, for every driver entry point the
  functions use, the status (and the output arguments) it answers with;
* the thread's current-context stack and the sequence of driver calls issued on the thread
  are explicit state (`thread_t`), as is the per-instance node enabling kept by the driver
  (`driver_state_t`);
* the identification strings (`identify`, `describe(update_status_t)`), which the source
  takes from other headers, are a parameter (`identification_t`).
-/

namespace cuda

/-- The driver's status code, `CUresult`. -/
abbrev status_t := Nat

namespace status

/-- The one success value, `CUDA_SUCCESS`. -/
def success : status_t := 0

end status

/-- Modelled from the spec: `is_success` of `error.hpp`, which is not among the sources: status
codes have one "success" value and many failure values. -/
def is_success (status : status_t) : Bool := status == cuda.status.success

/-- Modelled from the spec: `is_failure` of `error.hpp`, which is not among the sources: every
status other than the success value is a failure. -/
def is_failure (status : status_t) : Bool := !is_success status

/-- Modelled from the spec: the ownership flag values of `types.hpp`, which is not among the
sources: an adopting construction has owning = true. -/
def do_take_ownership : Bool := true

namespace context

abbrev handle_t := Nat

end context

namespace stream

abbrev handle_t := Nat

end stream

/-- The part of a stream wrapper which `graph.hpp` reads: its handle and the handle of the
context it was created in. -/
structure stream_t where
  handle : stream.handle_t
  context_handle : context.handle_t
deriving DecidableEq, Repr

namespace graph

namespace node

abbrev handle_t := Nat

/-- Modelled from the spec: the "no-handle" sentinel of node handles (`graph/node.hpp`, which
is not among the sources); node handles are pointers, the sentinel is the null pointer. -/
def no_handle : handle_t := 0

end node

namespace template_

abbrev handle_t := Nat

end template_

namespace instance_

abbrev handle_t := Nat

/-- The update result, `CUgraphExecUpdateResult`. -/
abbrev update_status_t := Nat

end instance_

/-- A graph-template wrapper: a handle and the flag telling whether the wrapper owns it. -/
structure template_t where
  handle : template_.handle_t
  owning : Bool
deriving DecidableEq, Repr

/-- A graph-instance wrapper. -/
structure instance_t where
  handle : instance_.handle_t
  template_handle : template_.handle_t
  owning : Bool
deriving DecidableEq, Repr

/-- A node wrapper: the node's handle and the handle of the template containing it. -/
structure node_t where
  containing_graph_handle : template_.handle_t
  handle : node.handle_t
deriving DecidableEq, Repr

namespace template_

/-- Modelled from the spec: `template_::wrap` of `graph/template.hpp`, which is not among the
sources: an ownership-tagged handle value, the flag decided at construction. -/
def wrap (handle : handle_t) (take_ownership : Bool) : template_t :=
  { handle := handle, owning := take_ownership }

end template_

namespace node

/-- Modelled from the spec: `node::wrap` of `graph/node.hpp`, which is not among the sources:
a node is its handle together with a reference to its containing template. -/
def wrap (graph_handle : template_.handle_t) (handle : handle_t) : node_t :=
  { containing_graph_handle := graph_handle, handle := handle }

end node

end graph

/-- What the functions of `graph.hpp` throw. -/
inductive exception where
  /-- The translation of a failing driver status: `DriverCallFailure{code, message}`. -/
  | runtime_error (code : status_t) (what : String)
  /-- Modelled from the spec: `instance::update_failure` of `graph/instance.hpp`, which is
  not among the sources: `UpdateFailure{status, offending_node?}`. -/
  | update_failure (kind : graph.instance_.update_status_t)
      (impermissible_node : Option graph.node_t)
  /-- Thrown by `optional::value()` on an optional holding no value. -/
  | bad_optional_access
deriving DecidableEq, Repr

/-- Modelled from the spec: the `throw_if_error_lazy` macro of `error.hpp`, which is not among
the sources: given a status and a deferred description, either a normal return or a
`DriverCallFailure{code, message}`; the description is built on the failure path only. -/
def throw_if_error_lazy (status : status_t) (message : Unit → String) :
    Except exception Unit :=
  if is_failure status then
    Except.error (exception.runtime_error status (message ()))
  else
    Except.ok ()

/-- Modelled from the spec: `optional<T>::value()`: the held value, or `bad_optional_access`
when there is none. -/
def optional_value {α : Type} (o : Option α) : Except exception α :=
  match o with
  | some v => Except.ok v
  | none => Except.error exception.bad_optional_access

/-- The identification helpers which `graph.hpp` uses and other headers define. -/
structure identification_t where
  /-- The one-argument `describe(update_status_t)`. -/
  describe_update_status : graph.instance_.update_status_t → String
  /-- The two-handle `node::detail_::identify(node_handle, graph_template_handle)`. -/
  node_identify : graph.node.handle_t → graph.template_.handle_t → String
  /-- The handle-only `template_::detail_::identify(handle)`. -/
  template_identify : graph.template_.handle_t → String
  /-- The wrapper-level `instance::detail_::identify(instance)`. -/
  instance_identify : graph.instance_t → String
  /-- The wrapper-level `stream::detail_::identify(stream)`. -/
  stream_identify : stream_t → String

/-- The output argument of the driver's graph update, `CUgraphExecUpdateResultInfo`. -/
structure CUgraphExecUpdateResultInfo where
  result : graph.instance_.update_status_t
  errorNode : graph.node.handle_t
deriving DecidableEq, Repr

/-- The driver, as far as `graph.hpp` calls it: for each entry point, the status it returns
and the values it writes to its output arguments. -/
structure driver_t where
  /-- Status of a graph launch, given the context current on the calling thread. -/
  cuGraphLaunch : Option context.handle_t → graph.instance_.handle_t → stream.handle_t →
    status_t
  /-- Status of a graph upload, given the context current on the calling thread. -/
  cuGraphUpload : Option context.handle_t → graph.instance_.handle_t → stream.handle_t →
    status_t
  /-- The four-argument update of CUDA before 12.0: status, error node, update result. -/
  cuGraphExecUpdate_v1 : graph.instance_.handle_t → graph.template_.handle_t →
    status_t × graph.node.handle_t × graph.instance_.update_status_t
  /-- The three-argument update of CUDA 12.0 and later: status and result info. -/
  cuGraphExecUpdate_v2 : graph.instance_.handle_t → graph.template_.handle_t →
    status_t × CUgraphExecUpdateResultInfo
  /-- Status of ending a capture and the graph handle written. -/
  cuStreamEndCapture : stream.handle_t → status_t × graph.template_.handle_t
  /-- Status the driver gives to reading or writing a node's enabling in an instance. -/
  node_enabling_status : graph.instance_.handle_t → graph.node.handle_t → status_t

/-- The driver's record of node enabling: per instance and node, the value last given. -/
structure driver_state_t where
  enabled : graph.instance_.handle_t → graph.node.handle_t → Nat

/-- Driver model: `cuGraphNodeSetEnabled` stores the value it is given when it succeeds. -/
def cuGraphNodeSetEnabled (drv : driver_t) (st : driver_state_t)
    (hGraphExec : graph.instance_.handle_t) (hNode : graph.node.handle_t) (isEnabled : Nat) :
    status_t × driver_state_t :=
  let status := drv.node_enabling_status hGraphExec hNode
  if is_failure status then
    (status, st)
  else
    (status,
      { enabled := fun i n => if i = hGraphExec ∧ n = hNode then isEnabled else st.enabled i n })

/-- Driver model: `cuGraphNodeGetEnabled` reports the stored value. -/
def cuGraphNodeGetEnabled (drv : driver_t) (st : driver_state_t)
    (hGraphExec : graph.instance_.handle_t) (hNode : graph.node.handle_t) : status_t × Nat :=
  (drv.node_enabling_status hGraphExec hNode, st.enabled hGraphExec hNode)

/-- A driver call which needs a current context, as issued: the context current at the
moment of the call, and the arguments. -/
inductive driver_call_t where
  | graph_launch (current : Option context.handle_t) (hGraphExec : graph.instance_.handle_t)
      (hStream : stream.handle_t)
  | graph_upload (current : Option context.handle_t) (hGraphExec : graph.instance_.handle_t)
      (hStream : stream.handle_t)
deriving DecidableEq, Repr

/-- The state of the calling thread: its current-context stack (top first) and the driver
calls issued so far (oldest first). -/
structure thread_t where
  context_stack : List context.handle_t
  driver_calls : List driver_call_t
deriving DecidableEq, Repr

namespace context

namespace current

/-- The context current on the thread: the top of its stack. -/
def get (s : thread_t) : Option handle_t := s.context_stack.head?

namespace detail_

/-- Push a context onto the thread's stack. -/
def push (context_handle : handle_t) (s : thread_t) : thread_t :=
  { s with context_stack := context_handle :: s.context_stack }

/-- Pop the thread's stack. -/
def pop (s : thread_t) : thread_t :=
  { s with context_stack := s.context_stack.tail }

namespace scoped_override_t

/-- Modelled from the spec: the constructor of `scoped_override_t` (`current_context.hpp`,
which is not among the sources): the required context is pushed. -/
def construct (context_handle : handle_t) (s : thread_t) : thread_t :=
  push context_handle s

/-- Modelled from the spec: the destructor of `scoped_override_t`: the prior context is
restored; it runs when the scope is left, by return or by a throw. -/
def destruct (s : thread_t) : thread_t := pop s

end scoped_override_t

end detail_

end current

end context

namespace graph

namespace node

namespace detail_

/-- Source: `node::detail_::identify(const node_t&)`. -/
def identify (ids : identification_t) (node : node_t) : String :=
  ids.node_identify node.handle node.containing_graph_handle

end detail_

end node

/-- Source: `graph::is_enabled_in` (compiled for CUDA 11.6 and later). -/
def is_enabled_in (drv : driver_t) (ids : identification_t) (st : driver_state_t)
    (node : node_t) (inst : instance_t) : Except exception Bool :=
  let r := cuGraphNodeGetEnabled drv st inst.handle node.handle
  match throw_if_error_lazy r.1
      (fun _ => "Determining whether " ++ graph.node.detail_.identify ids node ++ " is active in "
        ++ ids.instance_identify inst) with
  | Except.error e => Except.error e
  | Except.ok _ => Except.ok (r.2 == 1)

/-- Source: `graph::set_enabled_in` (compiled for CUDA 11.6 and later); the `bool` argument
reaches the driver's `unsigned` parameter as 1 or 0. -/
def set_enabled_in (drv : driver_t) (ids : identification_t) (st : driver_state_t)
    (node : node_t) (inst : instance_t) (enabled : Bool) :
    Except exception Unit × driver_state_t :=
  let r := cuGraphNodeSetEnabled drv st inst.handle node.handle (if enabled then 1 else 0)
  (throw_if_error_lazy r.1
      (fun _ => "Enabling " ++ graph.node.detail_.identify ids node ++ " in "
        ++ ids.instance_identify inst),
    r.2)

/-- Source: `graph::launch`. The scoped override lives until the function is left. -/
def launch (drv : driver_t) (ids : identification_t) (inst : instance_t) (stream : stream_t)
    (s : thread_t) : Except exception Unit × thread_t :=
  let s1 := context.current.detail_.scoped_override_t.construct stream.context_handle s
  let status := drv.cuGraphLaunch (context.current.get s1) inst.handle stream.handle
  let s2 : thread_t :=
    { s1 with driver_calls := s1.driver_calls ++
        [driver_call_t.graph_launch (context.current.get s1) inst.handle stream.handle] }
  (throw_if_error_lazy status
      (fun _ => "Launching " ++ ids.instance_identify inst ++ " on "
        ++ ids.stream_identify stream),
    context.current.detail_.scoped_override_t.destruct s2)

namespace instance_

/-- Source: `graph::instance::upload` (compiled for CUDA 11.1 and later). -/
def upload (drv : driver_t) (ids : identification_t) (inst : instance_t) (stream : stream_t)
    (s : thread_t) : Except exception Unit × thread_t :=
  let s1 := context.current.detail_.scoped_override_t.construct stream.context_handle s
  let status := drv.cuGraphUpload (context.current.get s1) inst.handle stream.handle
  let s2 : thread_t :=
    { s1 with driver_calls := s1.driver_calls ++
        [driver_call_t.graph_upload (context.current.get s1) inst.handle stream.handle] }
  (throw_if_error_lazy status
      (fun _ => "Uploading " ++ ids.instance_identify inst ++ " on "
        ++ ids.stream_identify stream),
    context.current.detail_.scoped_override_t.destruct s2)

/-- Modelled from the spec: the two-argument constructor of `update_failure`
(`graph/instance.hpp`, which is not among the sources), which `update` calls with a status and
a node wrapper: `UpdateFailure{status, offending_node?}` carries the located node when the
driver can identify one, and the offending node is absent when the driver cannot pinpoint one,
that is, when the wrapper's handle is the no-handle sentinel. -/
def update_failure (kind : update_status_t) (impermissible_node : node_t) : exception :=
  exception.update_failure kind
    (if impermissible_node.handle = node.no_handle then none else some impermissible_node)

/-- Source: `graph::instance::update`, both branches of `#if CUDA_VERSION < 12000`. -/
def update (CUDA_VERSION : Nat) (drv : driver_t) (destination : instance_t)
    (source : template_t) : Except exception Unit :=
  if CUDA_VERSION < 12000 then
    let r := drv.cuGraphExecUpdate_v1 destination.handle source.handle
    let status := r.1
    let impermissible_node_handle := r.2.1
    let update_status := r.2.2
    if is_failure status then
      Except.error (update_failure update_status
        (node.wrap source.handle impermissible_node_handle))
    else
      Except.ok ()
  else
    let r := drv.cuGraphExecUpdate_v2 destination.handle source.handle
    let status := r.1
    let update_result_info := r.2
    if is_failure status then
      Except.error (update_failure update_result_info.result
        (node.wrap source.handle update_result_info.errorNode))
    else
      Except.ok ()

/-- What the driver answers to the update call `update` makes: status, update result, error
node handle. -/
def driver_update_answer (CUDA_VERSION : Nat) (drv : driver_t) (destination : instance_t)
    (source : template_t) : status_t × update_status_t × node.handle_t :=
  if CUDA_VERSION < 12000 then
    let r := drv.cuGraphExecUpdate_v1 destination.handle source.handle
    (r.1, r.2.2, r.2.1)
  else
    let r := drv.cuGraphExecUpdate_v2 destination.handle source.handle
    (r.1, r.2.result, r.2.errorNode)

/-- Source: `instance_t::upload`. -/
def instance_t_upload (drv : driver_t) (ids : identification_t) (this : instance_t)
    (stream : stream_t) (s : thread_t) : Except exception Unit × thread_t :=
  upload drv ids this stream s

namespace detail_

/-- Source: `instance::detail_::describe`. -/
def describe (ids : identification_t) (update_status : update_status_t)
    (node_handle : node.handle_t) (graph_template_handle : template_.handle_t) : String :=
  let result := ids.describe_update_status update_status
  if node_handle != node.no_handle then
    result ++ ids.node_identify node_handle graph_template_handle
  else
    result

end detail_

end instance_

/-- Source: `node_t::containing_graph`. -/
def node_t.containing_graph (this : node_t) : template_t :=
  let dont_take_ownership : Bool := false
  template_.wrap this.containing_graph_handle dont_take_ownership

namespace template_

namespace detail_

/-- Source: `template_::detail_::identify(const template_t&)`. -/
def identify (ids : identification_t) (graph_template : template_t) : String :=
  ids.template_identify graph_template.handle

end detail_

end template_

end graph

/-- Source: `cuda::describe(update_status_t, optional<node_t>)`. The conditional picks its
second operand when the optional holds a value and its third when it holds none; the third
operand reads `node.value()` for each of its two handle arguments. -/
def describe (ids : identification_t) (update_status : graph.instance_.update_status_t)
    (node : Option graph.node_t) : Except exception String :=
  if node.isSome then
    Except.ok (ids.describe_update_status update_status)
  else
    match optional_value node with
    | Except.error e => Except.error e
    | Except.ok v1 =>
      match optional_value node with
      | Except.error e => Except.error e
      | Except.ok v2 =>
        Except.ok (graph.instance_.detail_.describe ids update_status v1.handle
          v2.containing_graph_handle)

namespace stream

namespace capture

/-- Source: `stream::capture::end`. -/
def end_ (drv : driver_t) (ids : identification_t) (stream : stream_t) :
    Except exception graph.template_t :=
  let r := drv.cuStreamEndCapture stream.handle
  let status := r.1
  let new_graph := r.2
  match throw_if_error_lazy status
      (fun _ => "Completing the capture of operations into a graph on "
        ++ ids.stream_identify stream) with
  | Except.error e => Except.error e
  | Except.ok _ => Except.ok (graph.template_.wrap new_graph do_take_ownership)

end capture

end stream

/-- The enqueueing facade of a stream: it refers to the stream it belongs to. -/
structure stream_t.enqueue_t where
  associated_stream : stream_t
deriving DecidableEq, Repr

/-- Source: `stream_t::enqueue_t::graph_launch`. -/
def stream_t.enqueue_t.graph_launch (drv : driver_t) (ids : identification_t)
    (this : stream_t.enqueue_t) (graph_instance : graph.instance_t) (s : thread_t) :
    Except exception Unit × thread_t :=
  graph.launch drv ids graph_instance this.associated_stream s

end cuda

/-! ## Sample driver and identification, for evaluating the functions on concrete inputs -/

namespace cuda

/-- A driver which accepts launches and uploads on stream 4 under context 40, updates from
template 7, capture ends on stream 4, and node enabling for every node but the null one.
Updates from template 8 fail with no error node, from any other template with error
node 55. -/
def sample_driver : driver_t where
  cuGraphLaunch := fun current _ hStream => if current = some 40 ∧ hStream = 4 then 0 else 201
  cuGraphUpload := fun current _ hStream => if current = some 40 ∧ hStream = 4 then 0 else 201
  cuGraphExecUpdate_v1 := fun _ hGraph =>
    if hGraph = 7 then (0, 0, 0) else if hGraph = 8 then (910, 0, 1) else (910, 55, 2)
  cuGraphExecUpdate_v2 := fun _ hGraph =>
    if hGraph = 7 then (0, { result := 0, errorNode := 0 })
    else if hGraph = 8 then (910, { result := 1, errorNode := 0 })
    else (910, { result := 2, errorNode := 55 })
  cuStreamEndCapture := fun hStream => if hStream = 4 then (0, 77) else (901, 99)
  node_enabling_status := fun _ hNode => if hNode = 0 then 1 else 0

/-- Short fixed identification strings. -/
def sample_identification : identification_t where
  describe_update_status := fun update_status =>
    if update_status = 0 then "success" else "update failed"
  node_identify := fun _ _ => " node in template"
  template_identify := fun _ => "template"
  instance_identify := fun _ => "instance"
  stream_identify := fun _ => "stream"

/-- A second identification, with other strings. -/
def other_identification : identification_t where
  describe_update_status := fun _ => "status"
  node_identify := fun _ _ => "N"
  template_identify := fun _ => "T"
  instance_identify := fun _ => "I"
  stream_identify := fun _ => "S"

/-- An instance with handle 3, instantiated from template 7. -/
def sample_instance : graph.instance_t := { handle := 3, template_handle := 7, owning := true }

/-- A driver state in which nothing was enabled yet. -/
def sample_driver_state : driver_state_t := { enabled := fun _ _ => 0 }

end cuda

/-! ## Theorems -/

open cuda

/-- General fact: the status translation returns normally exactly on the success status. -/
theorem throw_if_error_lazy_ok_iff (status : status_t) (message : Unit → String) :
    throw_if_error_lazy status message = Except.ok () ↔ status = cuda.status.success := by
  unfold throw_if_error_lazy is_failure is_success
  by_cases h : status = cuda.status.success <;> simp [h]

/-- General fact: on a failing status the translation raises the failure carrying it. -/
theorem throw_if_error_lazy_failure (status : status_t) (message : Unit → String)
    (h : status ≠ cuda.status.success) :
    throw_if_error_lazy status message =
      Except.error (exception.runtime_error status (message ())) := by
  unfold throw_if_error_lazy is_failure is_success
  simp [h]

/-- General fact: on the success status the translation returns whatever the message is. -/
theorem throw_if_error_lazy_success (message : Unit → String) :
    throw_if_error_lazy cuda.status.success message = Except.ok () := by
  unfold throw_if_error_lazy is_failure is_success
  simp

/-- General fact: what `update` returns, by the driver's answer to its call. -/
theorem update_eq (V : Nat) (drv : driver_t) (destination : graph.instance_t)
    (source : graph.template_t) :
    graph.instance_.update V drv destination source =
      if (graph.instance_.driver_update_answer V drv destination source).1 = cuda.status.success
      then Except.ok ()
      else Except.error (exception.update_failure
        (graph.instance_.driver_update_answer V drv destination source).2.1
        (if (graph.instance_.driver_update_answer V drv destination source).2.2 =
            graph.node.no_handle
          then none
          else some { containing_graph_handle := source.handle,
                      handle :=
                        (graph.instance_.driver_update_answer V drv destination source).2.2 }))
    := by
  unfold graph.instance_.update graph.instance_.driver_update_answer
    graph.instance_.update_failure graph.node.wrap is_failure is_success
  by_cases hV : V < 12000
  · by_cases h : (drv.cuGraphExecUpdate_v1 destination.handle source.handle).1 =
        cuda.status.success <;> simp [hV, h]
  · by_cases h : (drv.cuGraphExecUpdate_v2 destination.handle source.handle).1 =
        cuda.status.success <;> simp [hV, h]

/-- C1: for every destination instance and source template (and either driver interface
version), `instance::update` returns normally if and only if the driver's status for the update
call is the success value; otherwise it raises an update failure whose status field is exactly
the update result the driver reported for that call. -/
theorem update_returns_iff_success (V : Nat) (drv : driver_t) (destination : graph.instance_t)
    (source : graph.template_t) :
    (graph.instance_.update V drv destination source = Except.ok () ↔
      (graph.instance_.driver_update_answer V drv destination source).1 = cuda.status.success) ∧
    ((graph.instance_.driver_update_answer V drv destination source).1 ≠ cuda.status.success →
      ∃ node, graph.instance_.update V drv destination source =
        Except.error (exception.update_failure
          (graph.instance_.driver_update_answer V drv destination source).2.1 node)) := by
  rw [update_eq]
  by_cases h : (graph.instance_.driver_update_answer V drv destination source).1 = cuda.status.success
  · simp [h]
  · simp [h]

/-- Witness of C1: an update from template 9 fails under the sample driver, with the
driver's update result 2 in the failure. -/
theorem update_returns_iff_success_witness :
    (graph.instance_.driver_update_answer 12000 sample_driver sample_instance
        { handle := 9, owning := true }).1 ≠ cuda.status.success ∧
    ∃ node, graph.instance_.update 12000 sample_driver sample_instance
        { handle := 9, owning := true } =
      Except.error (exception.update_failure 2 node) :=
  ⟨by decide,
    (update_returns_iff_success 12000 sample_driver sample_instance
      { handle := 9, owning := true }).2 (by decide)⟩

/-- C2: for every failing `instance::update`, the failure raised tells a located node from no
locatable node: its offending node is absent whenever the driver reports no error node (the
node handle it returns is the no-handle sentinel), and present whenever the driver reports a
real node handle. -/
theorem update_failure_node_absent_iff_sentinel (V : Nat) (drv : driver_t)
    (destination : graph.instance_t) (source : graph.template_t)
    (hfail : (graph.instance_.driver_update_answer V drv destination source).1 ≠
      cuda.status.success) :
    ∃ node : Option graph.node_t,
      graph.instance_.update V drv destination source =
        Except.error (exception.update_failure
          (graph.instance_.driver_update_answer V drv destination source).2.1 node) ∧
      ((graph.instance_.driver_update_answer V drv destination source).2.2 =
          graph.node.no_handle → node = none) ∧
      ((graph.instance_.driver_update_answer V drv destination source).2.2 ≠
          graph.node.no_handle → node.isSome = true) := by
  refine ⟨if (graph.instance_.driver_update_answer V drv destination source).2.2 =
        graph.node.no_handle
      then none
      else some { containing_graph_handle := source.handle,
                  handle := (graph.instance_.driver_update_answer V drv destination source).2.2 },
    ?_, ?_, ?_⟩
  · rw [update_eq, if_neg hfail]
  · intro h
    rw [if_pos h]
  · intro h
    rw [if_neg h]
    rfl

/-- Witness of C2: under the sample driver the update from template 8 fails with no error
node, and the update from template 9 fails with error node 55. -/
theorem update_failure_node_absent_iff_sentinel_witness :
    (graph.instance_.driver_update_answer 11000 sample_driver sample_instance
        { handle := 8, owning := false }).1 ≠ cuda.status.success ∧
    (∃ node : Option graph.node_t,
      graph.instance_.update 11000 sample_driver sample_instance
          { handle := 8, owning := false } =
        Except.error (exception.update_failure
          (graph.instance_.driver_update_answer 11000 sample_driver sample_instance
            { handle := 8, owning := false }).2.1 node) ∧
      ((graph.instance_.driver_update_answer 11000 sample_driver sample_instance
          { handle := 8, owning := false }).2.2 = graph.node.no_handle → node = none) ∧
      ((graph.instance_.driver_update_answer 11000 sample_driver sample_instance
          { handle := 8, owning := false }).2.2 ≠ graph.node.no_handle →
        node.isSome = true)) ∧
    (∃ node : Option graph.node_t,
      graph.instance_.update 12000 sample_driver sample_instance
          { handle := 9, owning := true } =
        Except.error (exception.update_failure
          (graph.instance_.driver_update_answer 12000 sample_driver sample_instance
            { handle := 9, owning := true }).2.1 node) ∧
      ((graph.instance_.driver_update_answer 12000 sample_driver sample_instance
          { handle := 9, owning := true }).2.2 = graph.node.no_handle → node = none) ∧
      ((graph.instance_.driver_update_answer 12000 sample_driver sample_instance
          { handle := 9, owning := true }).2.2 ≠ graph.node.no_handle →
        node.isSome = true)) :=
  ⟨by decide,
    update_failure_node_absent_iff_sentinel 11000 sample_driver sample_instance
      { handle := 8, owning := false } (by decide),
    update_failure_node_absent_iff_sentinel 12000 sample_driver sample_instance
      { handle := 9, owning := true } (by decide)⟩

/-- C3: for every failing `instance::update(destination, source)` in which the driver reports
an error node, the offending node carried by the failure is a node of the source template: its
handle is the error node handle the driver reported and its containing-template handle is the
handle of `source`, whatever template the destination was instantiated from. -/
theorem update_failure_node_in_source (V : Nat) (drv : driver_t)
    (destination : graph.instance_t) (source : graph.template_t)
    (hfail : (graph.instance_.driver_update_answer V drv destination source).1 ≠
      cuda.status.success)
    (hnode : (graph.instance_.driver_update_answer V drv destination source).2.2 ≠
      graph.node.no_handle) :
    ∃ node : graph.node_t,
      graph.instance_.update V drv destination source =
        Except.error (exception.update_failure
          (graph.instance_.driver_update_answer V drv destination source).2.1 (some node)) ∧
      node.handle = (graph.instance_.driver_update_answer V drv destination source).2.2 ∧
      node.containing_graph_handle = source.handle := by
  refine ⟨{ containing_graph_handle := source.handle,
            handle := (graph.instance_.driver_update_answer V drv destination source).2.2 },
    ?_, rfl, rfl⟩
  rw [update_eq, if_neg hfail, if_neg hnode]

/-- Witness of C3: the sample instance (instantiated from template 7) updated from template 9
fails with error node 55; the node carried is node 55 of template 9, not of template 7. -/
theorem update_failure_node_in_source_witness :
    ∃ node : graph.node_t,
      graph.instance_.update 12000 sample_driver sample_instance
          { handle := 9, owning := true } =
        Except.error (exception.update_failure
          (graph.instance_.driver_update_answer 12000 sample_driver sample_instance
            { handle := 9, owning := true }).2.1 (some node)) ∧
      node.handle = (graph.instance_.driver_update_answer 12000 sample_driver sample_instance
        { handle := 9, owning := true }).2.2 ∧
      node.containing_graph_handle = (9 : Nat) :=
  update_failure_node_in_source 12000 sample_driver sample_instance
    { handle := 9, owning := true } (by decide) (by decide)

/-- C7: for every node, `node_t::containing_graph` returns a template wrapper which is
non-owning and whose handle is the node's `containing_graph_handle()`; so taking the
containing template of a node makes no second owner of the template's handle. -/
theorem containing_graph_non_owning (node : graph.node_t) :
    node.containing_graph.owning = false ∧
    node.containing_graph.handle = node.containing_graph_handle := by
  unfold graph.node_t.containing_graph graph.template_.wrap
  exact ⟨rfl, rfl⟩

/-- General fact: a scoped override, once destructed, leaves the stack as it found it,
whatever driver calls were recorded in between. -/
theorem scoped_override_restores (context_handle : context.handle_t) (s : thread_t)
    (calls : List driver_call_t) :
    (context.current.detail_.scoped_override_t.destruct
      { context.current.detail_.scoped_override_t.construct context_handle s with
        driver_calls := calls }).context_stack = s.context_stack := by
  simp [context.current.detail_.scoped_override_t.destruct,
    context.current.detail_.scoped_override_t.construct, context.current.detail_.pop,
    context.current.detail_.push]

/-- General fact: within a scoped override the overriding context is the current one. -/
theorem scoped_override_current (context_handle : context.handle_t) (s : thread_t) :
    context.current.get
      (context.current.detail_.scoped_override_t.construct context_handle s) =
      some context_handle := by
  simp [context.current.get, context.current.detail_.scoped_override_t.construct,
    context.current.detail_.push]

/-- C4: with the thread's current-context stack as explicit state, for every instance, stream
and initial stack, both `graph::launch` and `instance::upload` leave the context stack exactly
as it was before the call, whatever the outcome: normal return when the driver call succeeds,
or a raised failure when it fails. -/
theorem launch_upload_preserve_context_stack (drv : driver_t) (ids : identification_t)
    (inst : graph.instance_t) (stream : stream_t) (s : thread_t) :
    (graph.launch drv ids inst stream s).2.context_stack = s.context_stack ∧
    (graph.instance_.upload drv ids inst stream s).2.context_stack = s.context_stack := by
  unfold graph.launch graph.instance_.upload
  exact ⟨scoped_override_restores _ _ _, scoped_override_restores _ _ _⟩

/-- C6: for every stream on which the driver's end-capture call succeeds,
`stream::capture::end` returns a template wrapper whose handle is the graph handle the driver
call produced and which is owning; when the driver call fails, `end` raises the translated
failure and returns no template wrapper. -/
theorem capture_end_wraps_owned_on_success (drv : driver_t) (ids : identification_t)
    (stream : stream_t) :
    ((drv.cuStreamEndCapture stream.handle).1 = cuda.status.success →
      cuda.stream.capture.end_ drv ids stream =
        Except.ok { handle := (drv.cuStreamEndCapture stream.handle).2, owning := true }) ∧
    ((drv.cuStreamEndCapture stream.handle).1 ≠ cuda.status.success →
      (∃ what, cuda.stream.capture.end_ drv ids stream =
        Except.error (exception.runtime_error (drv.cuStreamEndCapture stream.handle).1 what)) ∧
      ∀ wrapper : graph.template_t, cuda.stream.capture.end_ drv ids stream ≠ Except.ok wrapper) := by
  constructor
  · intro h
    unfold cuda.stream.capture.end_
    simp only [h, throw_if_error_lazy_success]
    rfl
  · intro h
    unfold cuda.stream.capture.end_
    simp only [throw_if_error_lazy_failure _ _ h]
    exact ⟨⟨_, rfl⟩, fun wrapper hw => by cases hw⟩

/-- Witness of C6: ending the capture on stream 4 succeeds under the sample driver and gives
the owning wrapper of graph 77; on stream 5 it fails and gives no wrapper. -/
theorem capture_end_wraps_owned_on_success_witness :
    cuda.stream.capture.end_ sample_driver sample_identification
        { handle := 4, context_handle := 40 } =
      Except.ok { handle := 77, owning := true } ∧
    ∀ wrapper : graph.template_t,
      cuda.stream.capture.end_ sample_driver sample_identification
        { handle := 5, context_handle := 40 } ≠ Except.ok wrapper :=
  ⟨(capture_end_wraps_owned_on_success sample_driver sample_identification
      { handle := 4, context_handle := 40 }).1 (by decide),
    ((capture_end_wraps_owned_on_success sample_driver sample_identification
      { handle := 5, context_handle := 40 }).2 (by decide)).2⟩

/-- General fact: `set_enabled_in` returns normally exactly when the driver gives the success
status to the node's enabling in the instance. -/
theorem set_enabled_in_ok_iff (drv : driver_t) (ids : identification_t) (st : driver_state_t)
    (node : graph.node_t) (inst : graph.instance_t) (enabled : Bool) :
    (graph.set_enabled_in drv ids st node inst enabled).1 = Except.ok () ↔
      drv.node_enabling_status inst.handle node.handle = cuda.status.success := by
  unfold graph.set_enabled_in
  simp only [throw_if_error_lazy_ok_iff]
  unfold cuGraphNodeSetEnabled
  by_cases h : is_failure (drv.node_enabling_status inst.handle node.handle) = true <;>
    simp [h]

/-- C8: over the driver model which stores, per instance and node, the enabled value it was
last given and reports it back: if `set_enabled_in(node, instance, b)` succeeds then a following
`is_enabled_in(node, instance)` returns `b` (the driver holds 1 for true, 0 for false), and the
enabled state of every other node of the instance is unchanged. -/
theorem is_enabled_in_after_set_enabled_in (drv : driver_t) (ids : identification_t)
    (st : driver_state_t) (node : graph.node_t) (inst : graph.instance_t) (b : Bool)
    (hset : (graph.set_enabled_in drv ids st node inst b).1 = Except.ok ()) :
    graph.is_enabled_in drv ids (graph.set_enabled_in drv ids st node inst b).2 node inst =
      Except.ok b ∧
    (graph.set_enabled_in drv ids st node inst b).2.enabled inst.handle node.handle =
      (if b then 1 else 0) ∧
    ∀ other : graph.node_t, other.handle ≠ node.handle →
      (graph.set_enabled_in drv ids st node inst b).2.enabled inst.handle other.handle =
        st.enabled inst.handle other.handle ∧
      graph.is_enabled_in drv ids (graph.set_enabled_in drv ids st node inst b).2 other inst =
        graph.is_enabled_in drv ids st other inst := by
  have hs := (set_enabled_in_ok_iff drv ids st node inst b).1 hset
  have hf : is_failure (drv.node_enabling_status inst.handle node.handle) = false := by
    simp [is_failure, is_success, hs]
  have hst : (graph.set_enabled_in drv ids st node inst b).2 =
      { enabled := fun i n =>
          if i = inst.handle ∧ n = node.handle then (if b then 1 else 0)
          else st.enabled i n } := by
    simp [graph.set_enabled_in, cuGraphNodeSetEnabled, hf]
  rw [hst]
  refine ⟨?_, by simp, ?_⟩
  · unfold graph.is_enabled_in cuGraphNodeGetEnabled
    simp only [hs, throw_if_error_lazy_success]
    cases b <;> simp
  · intro other hne
    refine ⟨by simp [hne], ?_⟩
    unfold graph.is_enabled_in cuGraphNodeGetEnabled
    simp [hne]

/-- Witness of C8: node 5 of the sample instance is enabled and then read back as enabled. -/
theorem is_enabled_in_after_set_enabled_in_witness :
    graph.is_enabled_in sample_driver sample_identification
        (graph.set_enabled_in sample_driver sample_identification sample_driver_state
          { containing_graph_handle := 7, handle := 5 } sample_instance true).2
        { containing_graph_handle := 7, handle := 5 } sample_instance =
      Except.ok true :=
  (is_enabled_in_after_set_enabled_in sample_driver sample_identification sample_driver_state
    { containing_graph_handle := 7, handle := 5 } sample_instance true rfl).1

/-- C9: for every instance and stream, `graph::launch` returns normally if and only if the
driver's status for the launch call is the success value; for every failing status it raises
the driver-call failure whose code is exactly that status and whose message is built from the
identification of the instance and of the stream; and on the success path the outcome (result
and thread state) does not depend on the identification. -/
theorem launch_returns_iff_success (drv : driver_t) (ids : identification_t)
    (inst : graph.instance_t) (stream : stream_t) (s : thread_t) :
    ((graph.launch drv ids inst stream s).1 = Except.ok () ↔
      drv.cuGraphLaunch (some stream.context_handle) inst.handle stream.handle =
        cuda.status.success) ∧
    (drv.cuGraphLaunch (some stream.context_handle) inst.handle stream.handle ≠
        cuda.status.success →
      (graph.launch drv ids inst stream s).1 =
        Except.error (exception.runtime_error
          (drv.cuGraphLaunch (some stream.context_handle) inst.handle stream.handle)
          ("Launching " ++ ids.instance_identify inst ++ " on " ++
            ids.stream_identify stream))) ∧
    (drv.cuGraphLaunch (some stream.context_handle) inst.handle stream.handle =
        cuda.status.success →
      ∀ ids2 : identification_t,
        graph.launch drv ids2 inst stream s = graph.launch drv ids inst stream s) := by
  have hcur := scoped_override_current stream.context_handle s
  refine ⟨?_, ?_, ?_⟩
  · unfold graph.launch
    simp only [hcur, throw_if_error_lazy_ok_iff]
  · intro h
    unfold graph.launch
    simp only [hcur, throw_if_error_lazy_failure _ _ h]
  · intro h ids2
    unfold graph.launch
    simp only [hcur, h, throw_if_error_lazy_success]

/-- Witness of C9: a launch on stream 6 fails under the sample driver with status 201, which
is the code of the failure raised; a launch on stream 4 succeeds for both identifications. -/
theorem launch_returns_iff_success_witness :
    (graph.launch sample_driver sample_identification sample_instance
        { handle := 6, context_handle := 40 } { context_stack := [], driver_calls := [] }).1 =
      Except.error (exception.runtime_error 201 "Launching instance on stream") ∧
    graph.launch sample_driver other_identification sample_instance
        { handle := 4, context_handle := 40 } { context_stack := [41], driver_calls := [] } =
      graph.launch sample_driver sample_identification sample_instance
        { handle := 4, context_handle := 40 } { context_stack := [41], driver_calls := [] } :=
  ⟨(launch_returns_iff_success sample_driver sample_identification sample_instance
      { handle := 6, context_handle := 40 }
      { context_stack := [], driver_calls := [] }).2.1 (by decide),
    (launch_returns_iff_success sample_driver sample_identification sample_instance
      { handle := 4, context_handle := 40 }
      { context_stack := [41], driver_calls := [] }).2.2 (by decide) other_identification⟩

/-- General fact: on an optional holding no node, `describe` reads the optional's value and so
raises `bad_optional_access`. -/
theorem describe_none (ids : identification_t)
    (update_status : graph.instance_.update_status_t) :
    describe ids update_status none = Except.error exception.bad_optional_access := by
  simp [describe, optional_value]

/-- General fact: on an optional holding a node, `describe` returns the description of the
status alone. -/
theorem describe_some (ids : identification_t)
    (update_status : graph.instance_.update_status_t) (node : graph.node_t) :
    describe ids update_status (some node) =
      Except.ok (ids.describe_update_status update_status) := by
  simp [describe]

/-- C10 does not hold of the code: `describe(update_status, optional node)` with no node reads
the optional's value and raises `bad_optional_access` instead of returning the description of
the status; with node 5 of template 7 it returns the description of the status alone, which is
not the description followed by the node's identification. -/
theorem describe_update_status_inverted :
    describe sample_identification 1 none = Except.error exception.bad_optional_access ∧
    describe sample_identification 1 (some { containing_graph_handle := 7, handle := 5 }) =
      Except.ok "update failed" ∧
    sample_identification.describe_update_status 1 = "update failed" ∧
    sample_identification.describe_update_status 1 ++
      sample_identification.node_identify 5 7 = "update failed node in template" ∧
    graph.instance_.detail_.describe sample_identification 1 5 7 =
      "update failed node in template" := by
  refine ⟨describe_none _ _, ?_, by decide, by decide, by decide⟩
  rw [describe_some]
  rfl
